import Mathlib

/-!
Shallow embedding of the showdesk client: the session controller of
`frontend/app/page.js` (React state + the four async operations) and the
hotkey capture pipeline of the Electron main file. React state updates are
modelled by sequential record updates on an explicit state record; each
async operation takes the outcome of its single Gateway (fetch) call as an
explicit parameter and returns the final state together with the request it
issued (if any). `alert(...)` calls (blocking, user-visible errors) and
`console.error(...)` calls (non-blocking diagnostics) are recorded in two
observation lists on the state.
-/

namespace ShowDesk

/-- The subject record returned by the analyze endpoint:
`{subject, topic, level, concepts}` (page.js uses `subject.subject`,
`subject.topic`, `subject.level`, `subject.concepts`). -/
structure Subject where
  subject : String
  topic : String
  level : String
  concepts : List String
deriving DecidableEq

/-- One chat history entry `{role, content}` as stored in `chatHistory`. -/
structure Turn where
  role : String
  content : String
deriving DecidableEq

/-- The React state of `Home` in page.js (`useState` hooks), plus two
observation lists recording the `alert` calls (blocking errors) and the
`console.error` calls (non-blocking diagnostics) the operations make. -/
structure AppState where
  youtubeUrl : String
  sessionId : String
  subject : Option Subject
  loading : Bool
  chatHistory : List Turn
  message : String
  suggestions : List String
  showSuggestions : Bool
  alerts : List String
  logs : List String
deriving DecidableEq

/-- The initial `useState` values of page.js lines 9–16. -/
def initState : AppState where
  youtubeUrl := ""
  sessionId := ""
  subject := none
  loading := false
  chatHistory := []
  message := ""
  suggestions := []
  showSuggestions := true
  alerts := []
  logs := []

/-- Body of the analyze request: `{ url }` (page.js line 46). -/
structure AnalyzeRequest where
  url : String
deriving DecidableEq

/-- A success (`success: true`) response of the analyze endpoint.
`suggested_questions` is `none` when the field is absent from the JSON
(page.js line 54 defaults it with `|| []`). -/
structure AnalyzeResponse where
  session_id : String
  subject : Subject
  suggested_questions : Option (List String)
deriving DecidableEq

/-- Outcome of the `fetch` in `analyzeContent`: a success response, a
`success: false` response with its `detail` field (`""` for an absent or
empty detail, both falsy in JS), or a transport error caught by the
`catch` block (carrying `error.message`). -/
inductive AnalyzeOutcome where
  | success (r : AnalyzeResponse)
  | failureResponse (detail : String)
  | transportError (msg : String)
deriving DecidableEq

/-- The welcome message synthesized on successful analysis
(page.js line 60), with the response subject spliced in. -/
def welcomeMessage (subj : Subject) : String :=
  "Great! I\x27ve analyzed this " ++ subj.subject ++
    (" tutorial about \"" ++ subj.topic ++
      "\". I\x27m ready to help you learn! Ask me anything or use the suggestions below. 🚀")

/-- `analyzeContent` (page.js lines 34–70). Returns the final state and the
request issued (`none` when the empty-url guard returns early). -/
def analyzeContent (s : AppState) (outcome : AnalyzeOutcome) :
    AppState × Option AnalyzeRequest :=
  if s.youtubeUrl = "" then (s, none)
  else
    let s1 : AppState :=
      { s with loading := true, chatHistory := [], suggestions := [], subject := none }
    let s2 : AppState :=
      match outcome with
      | AnalyzeOutcome.success r =>
          { s1 with sessionId := r.session_id,
                    subject := some r.subject,
                    suggestions := r.suggested_questions.getD [],
                    showSuggestions := true,
                    chatHistory := [{ role := "assistant",
                                      content := welcomeMessage r.subject }] }
      | AnalyzeOutcome.failureResponse detail =>
          { s1 with alerts := s1.alerts ++
              ["Error: " ++ (if detail = "" then "Unknown error" else detail)] }
      | AnalyzeOutcome.transportError msg =>
          { s1 with alerts := s1.alerts ++ ["Error connecting to API: " ++ msg] }
    ({ s2 with loading := false }, some { url := s.youtubeUrl })

/-- Body of the chat request: `{ session_id, message, screenshot }`
(page.js lines 87–91). -/
structure ChatRequest where
  session_id : String
  message : String
  screenshot : String
deriving DecidableEq

/-- Outcome of the `fetch` in `sendMessage`: a success response carrying
`response`, a `success: false` response, or a caught transport error. -/
inductive ChatOutcome where
  | success (response : String)
  | failureResponse
  | transportError (msg : String)
deriving DecidableEq

/-- JS `String.prototype.trim()` as used on page.js line 74: strip
leading and trailing whitespace (modelled on the character list so that
it evaluates inside the kernel). -/
def jsTrim (s : String) : String :=
  ⟨((s.data.dropWhile Char.isWhitespace).reverse.dropWhile Char.isWhitespace).reverse⟩

/-- The text `sendMessage` resolves from its argument and the pending
input: `messageText || message` (page.js line 73; `""` is falsy, and a
missing argument is modelled as `""`). -/
def resolveText (s : AppState) (messageText : String) : String :=
  if messageText = "" then s.message else messageText

/-- The state of `sendMessage` at the moment the fetch is issued
(page.js lines 77–81): the user turn is already appended, the pending
input is cleared, `loading` is set and suggestions are hidden. Equals the
input state when the guard on line 74 returns early. -/
def sendMessagePre (s : AppState) (messageText : String) : AppState :=
  let textToSend := resolveText s messageText
  if jsTrim textToSend = "" ∨ s.sessionId = "" then s
  else
    { s with chatHistory := s.chatHistory ++ [{ role := "user", content := textToSend }],
             message := "",
             loading := true,
             showSuggestions := false }

/-- `sendMessage` (page.js lines 72–108). Returns the final state and the
chat request issued (`none` when the guard returns early). -/
def sendMessage (s : AppState) (messageText : String) (outcome : ChatOutcome) :
    AppState × Option ChatRequest :=
  let textToSend := resolveText s messageText
  if jsTrim textToSend = "" ∨ s.sessionId = "" then (s, none)
  else
    let s1 := sendMessagePre s messageText
    let s2 : AppState :=
      match outcome with
      | ChatOutcome.success response =>
          { s1 with chatHistory := s1.chatHistory ++
              [{ role := "assistant", content := response }] }
      | ChatOutcome.failureResponse =>
          { s1 with alerts := s1.alerts ++ ["Error getting response"] }
      | ChatOutcome.transportError msg =>
          { s1 with alerts := s1.alerts ++ ["Error: " ++ msg] }
    ({ s2 with loading := false },
     some { session_id := s.sessionId, message := textToSend, screenshot := "" })

/-- Body of the suggestion request: `{ session_id }` (page.js line 119). -/
structure SuggestRequest where
  session_id : String
deriving DecidableEq

/-- Outcome of the `fetch` in `refreshSuggestions`: a success response
carrying `suggestions`, a `success: false` response (silently ignored by
the code), or a caught transport error (logged via `console.error`). -/
inductive SuggestOutcome where
  | success (suggestions : List String)
  | failureResponse
  | transportError (msg : String)
deriving DecidableEq

/-- `refreshSuggestions` (page.js lines 110–133). Returns the final state
and the request issued (`none` when the no-session guard returns early). -/
def refreshSuggestions (s : AppState) (outcome : SuggestOutcome) :
    AppState × Option SuggestRequest :=
  if s.sessionId = "" then (s, none)
  else
    let s1 : AppState := { s with loading := true }
    let s2 : AppState :=
      match outcome with
      | SuggestOutcome.success sugg =>
          { s1 with suggestions := sugg, showSuggestions := true }
      | SuggestOutcome.failureResponse => s1
      | SuggestOutcome.transportError msg =>
          { s1 with logs := s1.logs ++ ["Error refreshing suggestions: " ++ msg] }
    ({ s2 with loading := false }, some { session_id := s.sessionId })

/-- `clearChat` (page.js lines 140–149); `confirmed` is the result of the
`confirm(...)` prompt. Note the code clears `youtubeUrl` but not
`message`. -/
def clearChat (s : AppState) (confirmed : Bool) : AppState :=
  if confirmed then
    { s with sessionId := "",
             subject := none,
             chatHistory := [],
             suggestions := [],
             youtubeUrl := "",
             showSuggestions := false }
  else s

/-- The suggestions-visibility toggle `setShowSuggestions(!showSuggestions)`
(page.js line 327). -/
def toggleSuggestions (s : AppState) : AppState :=
  { s with showSuggestions := !s.showSuggestions }

/-! ### The capture pipeline (Electron main file, hotkey callback) -/

/-- The parsed response of the capture-and-analyze endpoint: its
`issue_detected` field plus the rest of the payload (opaque here). -/
structure CaptureData where
  issue_detected : Bool
  payload : String
deriving DecidableEq

/-- A `webContents.send` event: channel name and the data it carries. -/
structure Notification where
  channel : String
  data : CaptureData
deriving DecidableEq

/-- The `CommandOrControl+K` hotkey callback (Electron main file lines
17–37). `captureResult` is `none` when `screenshot()` rejects (the async
callback then aborts with an unhandled rejection); `gateway` maps the
encoded image to `none` when the fetch/json chain rejects (there is no
`.catch`, so the chain aborts silently) and to the parsed response
otherwise. Returns the notification events sent to the renderer. -/
def captureHotkeyHandler (captureResult : Option String)
    (gateway : String → Option CaptureData) : List Notification :=
  match captureResult with
  | none => []
  | some img =>
      match gateway img with
      | none => []
      | some data =>
          if data.issue_detected then
            [{ channel := "show-notification", data := data }]
          else []

/-! ### Controller operation sequences

An `Op` is one invocation of a Controller operation together with the
outcome of its Gateway call (and, for `start`, the url typed into the
input field that `analyzeContent` reads; for `send`, the `messageText`
argument, `""` for the no-argument call that falls back to the pending
input). -/

inductive Op where
  | start (url : String) (outcome : AnalyzeOutcome)
  | send (messageText : String) (outcome : ChatOutcome)
  | refresh (outcome : SuggestOutcome)
  | reset (confirmed : Bool)
  | toggle
deriving DecidableEq

/-- One Controller operation applied to the state. `start url` first
stores the typed url (the controlled input's `onChange`) and then runs
`analyzeContent`, which reads it back from the state. -/
def step (s : AppState) : Op → AppState
  | Op.start url outcome => (analyzeContent { s with youtubeUrl := url } outcome).1
  | Op.send t outcome => (sendMessage s t outcome).1
  | Op.refresh outcome => (refreshSuggestions s outcome).1
  | Op.reset confirmed => clearChat s confirmed
  | Op.toggle => toggleSuggestions s

/-- Run a sequence of Controller operations from a state. -/
def run (s : AppState) (ops : List Op) : AppState := ops.foldl step s

/-- The spec's session-existence invariant: `sessionId == ""` iff
`subject == null` iff `history` is empty. -/
def sessionInvariant (s : AppState) : Prop :=
  (s.sessionId = "" ↔ s.subject = none) ∧ (s.sessionId = "" ↔ s.chatHistory = [])

instance (s : AppState) : Decidable (sessionInvariant s) := by
  unfold sessionInvariant; infer_instance

/-- Guard on `start` invocations: the Presentation Layer only offers the
start-session affordance when no session is active, and a conforming
Gateway issues non-empty session identifiers. All other operations are
unrestricted. -/
def opAllowed (s : AppState) : Op → Bool
  | Op.start _ (AnalyzeOutcome.success r) =>
      decide (s.sessionId = "") && decide (r.session_id ≠ "")
  | Op.start _ _ => decide (s.sessionId = "")
  | _ => true

/-- Every operation of the sequence satisfies `opAllowed` in the state it
is invoked in. -/
def allowedFrom (s : AppState) : List Op → Bool
  | [] => true
  | op :: ops => opAllowed s op && allowedFrom (step s op) ops

/-- An analyze outcome that is a failure: a transport error or a
non-success response (page.js treats both as operation failure). -/
def analyzeFailed : AnalyzeOutcome → Bool
  | AnalyzeOutcome.success _ => false
  | _ => true

/-- A chat outcome that is a failure: a transport error or a non-success
response. -/
def chatFailed : ChatOutcome → Bool
  | ChatOutcome.success _ => false
  | _ => true

/-! ### Concrete example data (used by counterexamples and witnesses) -/

/-- The analyze response of the spec's start-session scenario. -/
def exResp : AnalyzeResponse :=
  { session_id := "s1",
    subject := { subject := "coding", topic := "Loops", level := "beginner",
                 concepts := ["for", "while"] },
    suggested_questions := some ["What is a loop?"] }

/-- A state with a typed url and no active session. -/
def exUrl : AppState := { initState with youtubeUrl := "https://x/watch?v=abc" }

/-- A state with an active session, one history turn, a pending chat
draft and one suggestion. -/
def exActive : AppState :=
  { youtubeUrl := "https://x/watch?v=abc"
    sessionId := "s1"
    subject := some { subject := "coding", topic := "Loops", level := "beginner",
                      concepts := ["for", "while"] }
    loading := false
    chatHistory := [{ role := "assistant", content := "welcome" }]
    message := "draft question"
    suggestions := ["What is a loop?"]
    showSuggestions := true
    alerts := []
    logs := [] }

/-- A capture-analyze gateway that reports an issue. -/
def gwIssue : String → Option CaptureData :=
  fun _ => some { issue_detected := true, payload := "fix the bracket" }

/-- A capture-analyze gateway that reports no issue. -/
def gwNoIssue : String → Option CaptureData :=
  fun _ => some { issue_detected := false, payload := "all good" }

/-- A capture-analyze gateway whose fetch/json chain rejects. -/
def gwFail : String → Option CaptureData := fun _ => none

/-! ### Invariant preservation -/

/-- One allowed Controller operation preserves the session-existence
invariant. -/
theorem step_preserves_sessionInvariant (s : AppState) (op : Op)
    (hs : sessionInvariant s) (ha : opAllowed s op = true) :
    sessionInvariant (step s op) := by
  obtain ⟨h1, h2⟩ := hs
  cases op with
  | start url outcome =>
      cases outcome with
      | success r =>
          simp only [opAllowed, Bool.and_eq_true, decide_eq_true_eq] at ha
          obtain ⟨hsid, hrid⟩ := ha
          by_cases hurl : url = "" <;>
            simp [step, analyzeContent, sessionInvariant, hurl, hrid]
          exact ⟨h1, h2⟩
      | failureResponse detail =>
          simp only [opAllowed, decide_eq_true_eq] at ha
          by_cases hurl : url = "" <;>
            simp [step, analyzeContent, sessionInvariant, hurl, ha]
          exact ⟨h1.mp ha, h2.mp ha⟩
      | transportError msg =>
          simp only [opAllowed, decide_eq_true_eq] at ha
          by_cases hurl : url = "" <;>
            simp [step, analyzeContent, sessionInvariant, hurl, ha]
          exact ⟨h1.mp ha, h2.mp ha⟩
  | send t outcome =>
      by_cases hc : jsTrim (resolveText s t) = "" ∨ s.sessionId = ""
      · simp [step, sendMessage, hc]
        exact ⟨h1, h2⟩
      · push_neg at hc
        have hsub : ¬ s.subject = none := fun h => hc.2 (h1.mpr h)
        cases outcome <;>
          simp [step, sendMessage, sendMessagePre, hc.1, hc.2,
            sessionInvariant, hsub, List.append_eq_nil]
  | refresh outcome =>
      by_cases hsid : s.sessionId = ""
      · simp [step, refreshSuggestions, hsid]
        exact ⟨h1, h2⟩
      · cases outcome <;>
          simp [step, refreshSuggestions, hsid, sessionInvariant] <;>
          exact ⟨fun h => hsid (h1.mpr h), fun h => hsid (h2.mpr h)⟩
  | reset confirmed =>
      cases confirmed with
      | true => simp [step, clearChat, sessionInvariant]
      | false =>
          simp [step, clearChat]
          exact ⟨h1, h2⟩
  | toggle => exact ⟨h1, h2⟩

/-- A sequence of allowed Controller operations preserves the
session-existence invariant. -/
theorem run_preserves_sessionInvariant (ops : List Op) :
    ∀ s : AppState, sessionInvariant s → allowedFrom s ops = true →
      sessionInvariant (run s ops) := by
  induction ops with
  | nil => exact fun s hs _ => hs
  | cons op ops ih =>
      intro s hs ha
      simp only [allowedFrom, Bool.and_eq_true] at ha
      exact ih (step s op) (step_preserves_sessionInvariant s op hs ha.1) ha.2

/-! ### Claims -/

/-- Claim C1, counterexample: the session-existence invariant
(`sessionId == "" ↔ subject == null ↔ history empty`) does NOT hold after
every sequence of Controller operations. Concretely: start a session
successfully, then invoke `startSession` again with a failing Gateway
call. `analyzeContent` clears `subject` and `history` before its fetch
but never clears `sessionId`, so afterwards `sessionId = "s1"` while
`subject = none` and `history = []`. -/
theorem C1_invariant_counterexample :
    ¬ sessionInvariant (run initState
      [Op.start "https://y" (AnalyzeOutcome.success exResp),
       Op.start "https://y" (AnalyzeOutcome.transportError "down")]) := by
  decide

/-- Claim C1, amended: the invariant holds after every sequence of
Controller operations in which `startSession` is only invoked while no
session is active (which the Presentation Layer guarantees by hiding the
start affordance during a session) and every successful analyze response
carries a non-empty `session_id`; the other four operations are
unrestricted. -/
theorem C1_invariant_amended (ops : List Op)
    (h : allowedFrom initState ops = true) :
    sessionInvariant (run initState ops) :=
  run_preserves_sessionInvariant ops initState (by decide) h

/-- Witness for C1: a concrete allowed sequence exercising all five
operations keeps the invariant. -/
theorem C1_invariant_witness :
    allowedFrom initState
        [Op.start "https://y" (AnalyzeOutcome.success exResp),
         Op.send "hi" ChatOutcome.failureResponse,
         Op.refresh (SuggestOutcome.success ["q2"]),
         Op.toggle,
         Op.reset true] = true ∧
    sessionInvariant (run initState
        [Op.start "https://y" (AnalyzeOutcome.success exResp),
         Op.send "hi" ChatOutcome.failureResponse,
         Op.refresh (SuggestOutcome.success ["q2"]),
         Op.toggle,
         Op.reset true]) :=
  ⟨by decide, C1_invariant_amended _ (by decide)⟩

/-- Claim C2: a failed `startSession` (transport error or non-success
response) from an uninitialized session state leaves `sessionId = ""` and
makes no partial change to the session state: subject stays `null`,
history and suggestions stay empty, `busy` is false again, and the url
input, pending message and suggestions-visibility are untouched. -/
theorem C2_failed_start_no_partial_change (s : AppState) (o : AnalyzeOutcome)
    (hfail : analyzeFailed o = true)
    (hsid : s.sessionId = "") (hsub : s.subject = none)
    (hhist : s.chatHistory = []) (hsugg : s.suggestions = [])
    (hload : s.loading = false) :
    (analyzeContent s o).1.sessionId = "" ∧
    (analyzeContent s o).1.subject = none ∧
    (analyzeContent s o).1.chatHistory = [] ∧
    (analyzeContent s o).1.suggestions = [] ∧
    (analyzeContent s o).1.loading = false ∧
    (analyzeContent s o).1.youtubeUrl = s.youtubeUrl ∧
    (analyzeContent s o).1.message = s.message ∧
    (analyzeContent s o).1.showSuggestions = s.showSuggestions := by
  by_cases hurl : s.youtubeUrl = "" <;> cases o <;>
    simp_all [analyzeContent, analyzeFailed]

/-- Witness for C2: a concrete failed start from the empty state with a
typed url. -/
theorem C2_failed_start_witness :
    analyzeFailed (AnalyzeOutcome.failureResponse "boom") = true ∧
    ((analyzeContent exUrl (AnalyzeOutcome.failureResponse "boom")).1.sessionId = "" ∧
     (analyzeContent exUrl (AnalyzeOutcome.failureResponse "boom")).1.subject = none ∧
     (analyzeContent exUrl (AnalyzeOutcome.failureResponse "boom")).1.chatHistory = [] ∧
     (analyzeContent exUrl (AnalyzeOutcome.failureResponse "boom")).1.suggestions = [] ∧
     (analyzeContent exUrl (AnalyzeOutcome.failureResponse "boom")).1.loading = false ∧
     (analyzeContent exUrl (AnalyzeOutcome.failureResponse "boom")).1.youtubeUrl = exUrl.youtubeUrl ∧
     (analyzeContent exUrl (AnalyzeOutcome.failureResponse "boom")).1.message = exUrl.message ∧
     (analyzeContent exUrl (AnalyzeOutcome.failureResponse "boom")).1.showSuggestions = exUrl.showSuggestions) :=
  ⟨by decide,
   C2_failed_start_no_partial_change exUrl (AnalyzeOutcome.failureResponse "boom")
     (by decide) (by decide) (by decide) (by decide) (by decide) (by decide)⟩

/-- Claim C3: when `sendMessage`'s preconditions hold (resolved text
non-empty after trimming, active session), the user turn is already in
the history in the state from which the chat request is issued
(optimistic append), and when the Gateway call fails the user turn stays,
no assistant turn is appended, and exactly one blocking alert is
surfaced. -/
theorem C3_optimistic_append (s : AppState) (t : String) (o : ChatOutcome)
    (htrim : jsTrim (resolveText s t) ≠ "") (hsid : s.sessionId ≠ "")
    (hfail : chatFailed o = true) :
    (sendMessagePre s t).chatHistory
        = s.chatHistory ++ [{ role := "user", content := resolveText s t }] ∧
    (sendMessage s t o).1.chatHistory
        = s.chatHistory ++ [{ role := "user", content := resolveText s t }] ∧
    (sendMessage s t o).1.alerts.length = s.alerts.length + 1 := by
  cases o <;>
    simp_all [sendMessage, sendMessagePre, chatFailed, htrim, hsid]

/-- Witness for C3: sending `"why?"` in an active session with a
non-success Gateway response. -/
theorem C3_optimistic_append_witness :
    jsTrim (resolveText exActive "why?") ≠ "" ∧ exActive.sessionId ≠ "" ∧
    chatFailed ChatOutcome.failureResponse = true ∧
    ((sendMessagePre exActive "why?").chatHistory
        = exActive.chatHistory ++ [{ role := "user", content := resolveText exActive "why?" }] ∧
     (sendMessage exActive "why?" ChatOutcome.failureResponse).1.chatHistory
        = exActive.chatHistory ++ [{ role := "user", content := resolveText exActive "why?" }] ∧
     (sendMessage exActive "why?" ChatOutcome.failureResponse).1.alerts.length
        = exActive.alerts.length + 1) :=
  ⟨by decide, by decide, by decide,
   C3_optimistic_append exActive "why?" ChatOutcome.failureResponse
     (by decide) (by decide) (by decide)⟩

/-- Claim C4, counterexample: `resetSession` on confirmation does NOT
clear every pending input text — `clearChat` clears the url input
(`setYoutubeUrl('')`) but never clears the pending chat input `message`.
In a state with a pending chat draft, the draft survives the confirmed
reset. -/
theorem C4_reset_counterexample :
    ¬ (clearChat exActive true).message = "" := by decide

/-- Claim C4, amended: `resetSession` on confirmation sets
`sessionId = ""`, `subject = null`, `history = []`, `suggestions = []`,
`suggestionsVisible = false` and clears the pending url input text, but
leaves the pending chat input text unchanged; without confirmation it
leaves the entire state unchanged. -/
theorem C4_reset_amended (s : AppState) :
    (clearChat s true).sessionId = "" ∧
    (clearChat s true).subject = none ∧
    (clearChat s true).chatHistory = [] ∧
    (clearChat s true).suggestions = [] ∧
    (clearChat s true).showSuggestions = false ∧
    (clearChat s true).youtubeUrl = "" ∧
    (clearChat s true).message = s.message ∧
    (clearChat s true).loading = s.loading ∧
    clearChat s false = s := by
  simp [clearChat]

/-- Claim C5, counterexample: a failed `refreshSuggestions` does NOT
always log the error as a diagnostic — a `success: false` response takes
the `data.success` else-path, which has no logging statement at all, so
nothing is appended to the diagnostic log (only a caught transport error
is logged). -/
theorem C5_refresh_counterexample :
    (refreshSuggestions exActive SuggestOutcome.failureResponse).1.logs
        = exActive.logs ∧
    exActive.logs = [] := by decide

/-- Claim C5, amended: a failed `refreshSuggestions` in an active session
leaves `suggestions`, `history`, `sessionId` and every other session
field unchanged and surfaces no blocking error; a transport error appends
one entry to the non-blocking diagnostic log, while a non-success
response changes nothing at all beyond clearing `busy`. -/
theorem C5_refresh_failure_amended (s : AppState) (m : String)
    (hsid : s.sessionId ≠ "") :
    (refreshSuggestions s SuggestOutcome.failureResponse).1
        = { s with loading := false } ∧
    (refreshSuggestions s (SuggestOutcome.transportError m)).1
        = { s with loading := false,
                   logs := s.logs ++ ["Error refreshing suggestions: " ++ m] } := by
  simp [refreshSuggestions, hsid]

/-- Witness for C5: a failed refresh in the concrete active session. -/
theorem C5_refresh_failure_witness :
    exActive.sessionId ≠ "" ∧
    ((refreshSuggestions exActive SuggestOutcome.failureResponse).1
        = { exActive with loading := false } ∧
     (refreshSuggestions exActive (SuggestOutcome.transportError "ECONNREFUSED")).1
        = { exActive with
              loading := false,
              logs := exActive.logs ++
                ["Error refreshing suggestions: " ++ "ECONNREFUSED"] }) :=
  ⟨by decide, C5_refresh_failure_amended exActive "ECONNREFUSED" (by decide)⟩

/-- Claim C6: each of `startSession`, `sendMessage` and
`refreshSuggestions`, invoked in isolation with `busy = false`, ends with
`busy = false` again for every argument and every Gateway outcome —
`setLoading(false)` runs unconditionally after the try/catch. -/
theorem C6_busy_cleared (s : AppState) (t : String)
    (oa : AnalyzeOutcome) (oc : ChatOutcome) (os : SuggestOutcome)
    (hload : s.loading = false) :
    (analyzeContent s oa).1.loading = false ∧
    (sendMessage s t oc).1.loading = false ∧
    (refreshSuggestions s os).1.loading = false := by
  refine ⟨?_, ?_, ?_⟩
  · by_cases h : s.youtubeUrl = "" <;> cases oa <;>
      simp [analyzeContent, h, hload]
  · by_cases h : jsTrim (resolveText s t) = "" ∨ s.sessionId = "" <;> cases oc <;>
      simp [sendMessage, h, hload]
  · by_cases h : s.sessionId = "" <;> cases os <;>
      simp [refreshSuggestions, h, hload]

/-- Witness for C6: concrete operations from the initial (idle) state and
from an active session, with failing outcomes. -/
theorem C6_busy_cleared_witness :
    exActive.loading = false ∧
    ((analyzeContent exActive (AnalyzeOutcome.transportError "down")).1.loading = false ∧
     (sendMessage exActive "hi" ChatOutcome.failureResponse).1.loading = false ∧
     (refreshSuggestions exActive (SuggestOutcome.transportError "down")).1.loading = false) :=
  ⟨by decide,
   C6_busy_cleared exActive "hi" (AnalyzeOutcome.transportError "down")
     ChatOutcome.failureResponse (SuggestOutcome.transportError "down") (by decide)⟩

/-- Claim C7: a successful `startSession` sets `sessionId` and `subject`
to the returned values, `suggestions` to the returned
`suggested_questions` (empty when the field is absent),
`suggestionsVisible` to true, and makes the history exactly one assistant
turn whose content contains the returned subject's `subject` and `topic`
strings. -/
theorem C7_successful_start (s : AppState) (r : AnalyzeResponse)
    (hurl : s.youtubeUrl ≠ "") :
    (analyzeContent s (AnalyzeOutcome.success r)).1.sessionId = r.session_id ∧
    (analyzeContent s (AnalyzeOutcome.success r)).1.subject = some r.subject ∧
    (analyzeContent s (AnalyzeOutcome.success r)).1.suggestions
        = r.suggested_questions.getD [] ∧
    (analyzeContent s (AnalyzeOutcome.success r)).1.showSuggestions = true ∧
    (analyzeContent s (AnalyzeOutcome.success r)).1.chatHistory
        = [{ role := "assistant", content := welcomeMessage r.subject }] ∧
    (∃ p q, welcomeMessage r.subject = p ++ r.subject.subject ++ q) ∧
    (∃ p q, welcomeMessage r.subject = p ++ r.subject.topic ++ q) := by
  refine ⟨?_, ?_, ?_, ?_, ?_, ?_, ?_⟩
  · simp [analyzeContent, hurl]
  · simp [analyzeContent, hurl]
  · simp [analyzeContent, hurl]
  · simp [analyzeContent, hurl]
  · simp [analyzeContent, hurl]
  · exact ⟨"Great! I\x27ve analyzed this ",
      " tutorial about \"" ++ r.subject.topic ++
        "\". I\x27m ready to help you learn! Ask me anything or use the suggestions below. 🚀",
      rfl⟩
  · refine ⟨"Great! I\x27ve analyzed this " ++ r.subject.subject ++ " tutorial about \"",
      "\". I\x27m ready to help you learn! Ask me anything or use the suggestions below. 🚀",
      ?_⟩
    simp [welcomeMessage, String.append_assoc]

/-- Witness for C7: the spec's start-session scenario, with the concrete
response `exResp`. -/
theorem C7_successful_start_witness :
    exUrl.youtubeUrl ≠ "" ∧
    ((analyzeContent exUrl (AnalyzeOutcome.success exResp)).1.sessionId = exResp.session_id ∧
     (analyzeContent exUrl (AnalyzeOutcome.success exResp)).1.subject = some exResp.subject ∧
     (analyzeContent exUrl (AnalyzeOutcome.success exResp)).1.suggestions
        = exResp.suggested_questions.getD [] ∧
     (analyzeContent exUrl (AnalyzeOutcome.success exResp)).1.showSuggestions = true ∧
     (analyzeContent exUrl (AnalyzeOutcome.success exResp)).1.chatHistory
        = [{ role := "assistant", content := welcomeMessage exResp.subject }] ∧
     (∃ p q, welcomeMessage exResp.subject = p ++ exResp.subject.subject ++ q) ∧
     (∃ p q, welcomeMessage exResp.subject = p ++ exResp.subject.topic ++ q)) :=
  ⟨by decide, C7_successful_start exUrl exResp (by decide)⟩

/-- Claim C8: the hotkey handler emits exactly one show-notification
event, carrying the full parsed response, precisely when the screen
capture succeeds, the capture-analyze call succeeds, and the response's
`issue_detected` field is true; on a false `issue_detected`, a capture
failure, or a Gateway failure, no event is emitted. -/
theorem C8_capture_notification (captureResult : Option String)
    (gateway : String → Option CaptureData) :
    (∀ img d, captureResult = some img → gateway img = some d →
        d.issue_detected = true →
        captureHotkeyHandler captureResult gateway
          = [{ channel := "show-notification", data := d }]) ∧
    (∀ img d, captureResult = some img → gateway img = some d →
        d.issue_detected = false →
        captureHotkeyHandler captureResult gateway = []) ∧
    (captureResult = none → captureHotkeyHandler captureResult gateway = []) ∧
    (∀ img, captureResult = some img → gateway img = none →
        captureHotkeyHandler captureResult gateway = []) := by
  refine ⟨?_, ?_, ?_, ?_⟩
  · intro img d h1 h2 h3; simp [captureHotkeyHandler, h1, h2, h3]
  · intro img d h1 h2 h3; simp [captureHotkeyHandler, h1, h2, h3]
  · intro h1; simp [captureHotkeyHandler, h1]
  · intro img h1 h2; simp [captureHotkeyHandler, h1, h2]

/-- Witness for C8: the four concrete trigger outcomes. -/
theorem C8_capture_notification_witness :
    captureHotkeyHandler (some "img") gwIssue
        = [{ channel := "show-notification",
             data := { issue_detected := true, payload := "fix the bracket" } }] ∧
    captureHotkeyHandler (some "img") gwNoIssue = [] ∧
    captureHotkeyHandler none gwIssue = [] ∧
    captureHotkeyHandler (some "img") gwFail = [] :=
  ⟨(C8_capture_notification (some "img") gwIssue).1 "img" _ rfl rfl rfl,
   (C8_capture_notification (some "img") gwNoIssue).2.1 "img" _ rfl rfl rfl,
   (C8_capture_notification none gwIssue).2.2.1 rfl,
   (C8_capture_notification (some "img") gwFail).2.2.2 "img" rfl rfl⟩

/-- Claim C9: every chat request `sendMessage` actually issues carries
`screenshot = ""`, for every input text, session state and Gateway
outcome. -/
theorem C9_chat_screenshot_empty (s : AppState) (t : String) (o : ChatOutcome)
    (r : ChatRequest) (h : (sendMessage s t o).2 = some r) :
    r.screenshot = "" := by
  by_cases hc : jsTrim (resolveText s t) = "" ∨ s.sessionId = ""
  · simp [sendMessage, hc] at h
  · simp [sendMessage, hc] at h
    rw [← h]

/-- Witness for C9: the concrete chat request issued from the active
session. -/
theorem C9_chat_screenshot_empty_witness :
    (sendMessage exActive "hi" (ChatOutcome.success "ok")).2
        = some { session_id := "s1", message := "hi", screenshot := "" } ∧
    ({ session_id := "s1", message := "hi", screenshot := "" } : ChatRequest).screenshot
        = "" :=
  ⟨by decide,
   C9_chat_screenshot_empty exActive "hi" (ChatOutcome.success "ok")
     { session_id := "s1", message := "hi", screenshot := "" } (by decide)⟩

/-- Claim C10: a Controller operation invoked with its precondition
violated is a complete no-op: `startSession` with an empty url,
`sendMessage` with whitespace-only (or empty) resolved text or with no
active session, and `refreshSuggestions` with no active session each
return the state unchanged and issue no Gateway request. -/
theorem C10_precondition_noop (s : AppState) (t : String)
    (oa : AnalyzeOutcome) (oc : ChatOutcome) (os : SuggestOutcome) :
    (s.youtubeUrl = "" → analyzeContent s oa = (s, none)) ∧
    (jsTrim (resolveText s t) = "" ∨ s.sessionId = "" →
        sendMessage s t oc = (s, none)) ∧
    (s.sessionId = "" → refreshSuggestions s os = (s, none)) := by
  refine ⟨fun h => ?_, fun h => ?_, fun h => ?_⟩
  · simp [analyzeContent, h]
  · simp [sendMessage, h]
  · simp [refreshSuggestions, h]

/-- Witness for C10: the three guarded operations on the initial state
(empty url, empty pending text, no session) are exact no-ops. -/
theorem C10_precondition_noop_witness :
    analyzeContent initState (AnalyzeOutcome.transportError "x") = (initState, none) ∧
    sendMessage initState "  " (ChatOutcome.success "ok") = (initState, none) ∧
    refreshSuggestions initState (SuggestOutcome.success ["a"]) = (initState, none) :=
  ⟨(C10_precondition_noop initState "  " (AnalyzeOutcome.transportError "x")
      (ChatOutcome.success "ok") (SuggestOutcome.success ["a"])).1 (by decide),
   (C10_precondition_noop initState "  " (AnalyzeOutcome.transportError "x")
      (ChatOutcome.success "ok") (SuggestOutcome.success ["a"])).2.1 (by decide),
   (C10_precondition_noop initState "  " (AnalyzeOutcome.transportError "x")
      (ChatOutcome.success "ok") (SuggestOutcome.success ["a"])).2.2 (by decide)⟩

end ShowDesk
